import Mathlib

/-!
Verification of the OAuth token lifecycle manager and the resilient API-call
wrapper of `src/api/index.py` (Flask backend proxying the FatSecret API).

The Python functions are shallowly embedded as pure Lean functions:

* network I/O is replaced by explicit oracles (`RefreshOutcome`, `ApiOutcome`)
  giving the upstream behaviour of each attempt;
* `time.sleep` calls are recorded in a trace instead of performed;
* the mutable `token_info` dictionary becomes the `TokenInfo` state threaded
  through the functions;
* `threading.Thread(...).start()` in `schedule_token_refresh` is recorded as a
  Boolean "timer started" flag;
* exceptions become explicit result constructors.

For the concurrency claim about `get_token` under contention, the function is
additionally modelled as a small-step interleaving transition system over the
program counters of `N` threads sharing the token state and the refresh lock.
-/

/-! ## Constants (src/api/index.py lines 138-141) -/

def TOKEN_REFRESH_THRESHOLD : Nat := 3600

def MAX_RETRIES : Nat := 3

def RETRY_DELAY : Nat := 2

/-! ## String helpers

Python's `'token is invalid' in error_msg.lower()` (line 276): an ASCII
lower-casing followed by a substring test, modelled over `List Char`. -/

def asciiLower (c : Char) : Char :=
  if 'A' ≤ c && c ≤ 'Z' then Char.ofNat (c.toNat + 32) else c

def pyLower (s : String) : List Char :=
  s.data.map asciiLower

def listStartsWith : List Char → List Char → Bool
  | _, [] => true
  | [], _ :: _ => false
  | c :: cs, p :: ps => c == p && listStartsWith cs ps

def listHasSub : List Char → List Char → Bool
  | [], pat => pat.isEmpty
  | c :: cs, pat => listStartsWith (c :: cs) pat || listHasSub cs pat

/-- The `'token is invalid' in error_msg.lower()` test of line 276. -/
def msgSaysTokenInvalid (msg : String) : Bool :=
  listHasSub (pyLower msg) (String.data "token is invalid")

/-! ## Token state (src/api/index.py lines 131-136)

The module-level `token_info` dictionary holds `access_token` (initially
`None`) and `expiry_time` (a timestamp; compared against `time.time()`, here
an `Int`).  The `refresh_lock` mutex appears only in the concurrency model. -/

structure TokenInfo where
  access_token : Option String
  expiry_time : Int
deriving DecidableEq, Repr

/-- The refresh condition of lines 148-152 (re-evaluated under the lock at
lines 158-160): `force_refresh or token_info["access_token"] is None or
token_info["expiry_time"] - current_time < TOKEN_REFRESH_THRESHOLD`. -/
def needs_refresh (force_refresh : Bool) (current_time : Int) (st : TokenInfo) : Bool :=
  force_refresh || st.access_token.isNone ||
    decide (st.expiry_time - current_time < (TOKEN_REFRESH_THRESHOLD : Int))

/-! ## refresh_token (src/api/index.py lines 183-216)

The network exchange against the auth endpoint is an oracle value: either the
POST itself raised, or an HTTP response arrived, described by whether
`raise_for_status()` passes, whether the body parses as JSON, and the
`access_token` / `expires_in` fields of the parsed body (absent fields raise
`KeyError` at the point of subscripting). -/

inductive RefreshOutcome where
  | transportError
  | httpResponse (ok : Bool) (jsonOk : Bool) (access_token : Option String)
      (expires_in : Option Int)
deriving DecidableEq, Repr

structure RefreshResult where
  state : TokenInfo
  ok : Bool
  scheduled : Bool
deriving DecidableEq, Repr

/-- Lines 218-234: `refresh_time = expires_in - TOKEN_REFRESH_THRESHOLD`; a
background refresh thread is started iff `refresh_time > 0`.  The returned
Bool records whether the timer thread was started. -/
def schedule_token_refresh (expires_in : Int) : Bool :=
  decide (0 < expires_in - (TOKEN_REFRESH_THRESHOLD : Int))

/-- Lines 183-216, step by step.  Note the source order: line 202 assigns
`token_info["access_token"] = token_data["access_token"]` and only then line
203 reads `token_data["expires_in"]`; a `KeyError` there fires after the
first assignment has already happened. -/
def refresh_token (now : Int) (o : RefreshOutcome) (st : TokenInfo) : RefreshResult :=
  match o with
  | .transportError => ⟨st, false, false⟩
  | .httpResponse ok jsonOk tok exp =>
    if !ok then ⟨st, false, false⟩
    else if !jsonOk then ⟨st, false, false⟩
    else
      match tok with
      | none => ⟨st, false, false⟩
      | some t =>
        let st1 : TokenInfo := ⟨some t, st.expiry_time⟩
        match exp with
        | none => ⟨st1, false, false⟩
        | some e =>
          let st2 : TokenInfo := ⟨some t, now + e⟩
          ⟨st2, true, schedule_token_refresh e⟩

/-! ## refresh_token_with_retry (src/api/index.py lines 166-181) -/

structure RetryResult where
  state : TokenInfo
  ok : Bool
  networkCalls : Nat
  sleeps : List Nat
deriving DecidableEq, Repr

/-- The `for attempt in range(MAX_RETRIES)` loop of lines 168-181, with the
remaining iteration count as structural fuel (`fuel + attempt = MAX_RETRIES`
at every call; `fuel = 0` is unreachable since the last iteration always
returns or raises).  `o` gives the network outcome of each attempt, `calls`
and `sleeps` accumulate the trace. -/
def refresh_retry_go (now : Int) (o : Nat → RefreshOutcome) :
    Nat → Nat → TokenInfo → Nat → List Nat → RetryResult
  | 0, _, st, calls, sleeps => ⟨st, false, calls, sleeps⟩
  | fuel + 1, attempt, st, calls, sleeps =>
    let r := refresh_token now (o attempt) st
    if r.ok then ⟨r.state, true, calls + 1, sleeps⟩
    else if attempt < MAX_RETRIES - 1 then
      refresh_retry_go now o fuel (attempt + 1) r.state (calls + 1)
        (sleeps ++ [RETRY_DELAY * 2 ^ attempt])
    else ⟨r.state, false, calls + 1, sleeps⟩

def refresh_token_with_retry (now : Int) (o : Nat → RefreshOutcome) (st : TokenInfo) :
    RetryResult :=
  refresh_retry_go now o MAX_RETRIES 0 st 0 []

/-! ## get_token (src/api/index.py lines 143-164)

`now` is the `time.time()` of line 145 and `now2` the re-sampled
`time.time()` of line 157 inside the lock.  (The further `time.time()` calls
inside each refresh attempt are collapsed to `now2`; no claim depends on the
exact expiry arithmetic across re-samplings.)  `raised` records whether
`refresh_token_with_retry` raised, in which case `get_token` propagates the
exception and returns nothing. -/

structure GetTokenResult where
  state : TokenInfo
  raised : Bool
  ret : Option String
  networkCalls : Nat
  sleeps : List Nat
deriving DecidableEq, Repr

def get_token (force_refresh : Bool) (now now2 : Int) (o : Nat → RefreshOutcome)
    (st : TokenInfo) : GetTokenResult :=
  if needs_refresh force_refresh now st then
    -- with token_info["refresh_lock"]: double-check after acquiring the lock
    if needs_refresh force_refresh now2 st then
      let r := refresh_token_with_retry now2 o st
      if r.ok then ⟨r.state, false, r.state.access_token, r.networkCalls, r.sleeps⟩
      else ⟨r.state, true, none, r.networkCalls, r.sleeps⟩
    else ⟨st, false, st.access_token, 0, []⟩
  else ⟨st, false, st.access_token, 0, []⟩

/-! ## call_api (src/api/index.py lines 244-303)

Per-attempt upstream behaviour is an oracle: either `requests.post` raised a
transport-level `RequestException` carrying no response (`exn`), or an HTTP
response arrived (`resp`), described by its status code and, when the body
text contains an `error` JSON object, that object's optional `message` field
(`errObj = some m`; `m = none` models a missing `message` key, which line 273
replaces by `"Unknown API error"`).  Bodies with an error object are assumed
to parse as JSON.  The forced `get_token(force_refresh=True)` calls of lines
279/296 are modelled by the oracle `fresh`, giving the token produced by the
k-th forced refresh. -/

structure ApiResponse where
  status : Nat
  errObj : Option (Option String)
deriving DecidableEq, Repr

inductive ApiOutcome where
  | exn
  | resp (r : ApiResponse)
deriving DecidableEq, Repr

inductive CallResult where
  | success (r : ApiResponse)
  | transportError
  | httpError (status : Nat)
  | appError (msg : String)
deriving DecidableEq, Repr

/-- The payload of a `call_api` request: either a Python dict (an association
list of string keys, values abstracted away) or some non-dict object. -/
inductive Payload where
  | dict (keys : List String)
  | nonDict
deriving DecidableEq, Repr

inductive Encoding where
  | json
  | form
deriving DecidableEq, Repr

/-- Lines 252-262: `if isinstance(params, dict) and 'image_b64' in params:`
send as JSON, `else` send as form data. -/
def choose_encoding (params : Payload) : Encoding :=
  match params with
  | .dict keys => if keys.contains "image_b64" then .json else .form
  | .nonDict => .form

/-- Line 273: `error_json['error'].get('message', 'Unknown API error')`. -/
def errorMessageOf (errObj : Option String) : String :=
  match errObj with
  | some m => m
  | none => "Unknown API error"

structure CallTrace where
  result : CallResult
  encoding : Encoding
  auth : String
  refreshes : Nat
  attempts : Nat
  sleeps : List Nat
deriving DecidableEq, Repr

/-- The `for attempt in range(MAX_RETRIES)` loop of lines 246-303, with the
remaining iteration count as structural fuel (`fuel + attempt = MAX_RETRIES`;
`fuel = 0` is unreachable since the last iteration always returns or raises).
`auth` is the `headers["Authorization"]` entry, mutated in place by the
forced-refresh paths; `attempts` counts `requests.post` invocations. -/
def call_api_go (enc : Encoding) (o : Nat → ApiOutcome) (fresh : Nat → String) :
    Nat → Nat → String → Nat → Nat → List Nat → CallTrace
  | 0, _, auth, refreshes, attempts, sleeps =>
    ⟨.transportError, enc, auth, refreshes, attempts, sleeps⟩
  | fuel + 1, attempt, auth, refreshes, attempts, sleeps =>
    match o attempt with
    | .exn =>
      -- requests.RequestException with no response attached (lines 287-303)
      if attempt < MAX_RETRIES - 1 then
        call_api_go enc o fresh fuel (attempt + 1) auth refreshes (attempts + 1)
          (sleeps ++ [RETRY_DELAY * 2 ^ attempt])
      else ⟨.transportError, enc, auth, refreshes, attempts + 1, sleeps⟩
    | .resp r =>
      if r.status == 200 && r.errObj.isSome then
        -- lines 269-282: error envelope inside an HTTP 200 body
        let error_msg := errorMessageOf (r.errObj.getD none)
        if msgSaysTokenInvalid error_msg && decide (attempt < MAX_RETRIES - 1) then
          -- refresh the token, update the header, and retry with no sleep
          call_api_go enc o fresh fuel (attempt + 1)
            ("Bearer " ++ fresh refreshes) (refreshes + 1) (attempts + 1) sleeps
        else ⟨.appError error_msg, enc, auth, refreshes, attempts + 1, sleeps⟩
      else if 400 ≤ r.status then
        -- line 284 raise_for_status → HTTPError, caught at line 287
        if attempt < MAX_RETRIES - 1 then
          if r.status == 401 || r.status == 403 then
            call_api_go enc o fresh fuel (attempt + 1)
              ("Bearer " ++ fresh refreshes) (refreshes + 1) (attempts + 1)
              (sleeps ++ [RETRY_DELAY * 2 ^ attempt])
          else
            call_api_go enc o fresh fuel (attempt + 1) auth refreshes (attempts + 1)
              (sleeps ++ [RETRY_DELAY * 2 ^ attempt])
        else ⟨.httpError r.status, enc, auth, refreshes, attempts + 1, sleeps⟩
      else ⟨.success r, enc, auth, refreshes, attempts + 1, sleeps⟩

def call_api (params : Payload) (auth : String) (o : Nat → ApiOutcome)
    (fresh : Nat → String) : CallTrace :=
  call_api_go (choose_encoding params) o fresh MAX_RETRIES 0 auth 0 0 []

/-- An attempt outcome that takes the no-sleep retry path of lines 276-280:
an HTTP 200 carrying an error envelope whose message says the token is
invalid. -/
def isTokenInvalid200 (a : ApiOutcome) : Bool :=
  match a with
  | .exn => false
  | .resp r =>
    r.status == 200 && r.errObj.isSome &&
      msgSaysTokenInvalid (errorMessageOf (r.errObj.getD none))

/-! ## Helper lemmas -/

/-- The exponential backoff duration of attempt `a`: `RETRY_DELAY * 2^attempt`
(lines 176 and 298). -/
def backoffOf (a : Nat) : Nat := RETRY_DELAY * 2 ^ a

theorem refresh_retry_go_calls_le (now : Int) (o : Nat → RefreshOutcome) :
    ∀ fuel attempt st calls sleeps,
      calls ≤ (refresh_retry_go now o fuel attempt st calls sleeps).networkCalls := by
  intro fuel
  induction fuel with
  | zero => intro attempt st calls sleeps; exact le_refl _
  | succ f ih =>
    intro attempt st calls sleeps
    simp only [refresh_retry_go]
    split
    · exact Nat.le_succ _
    · split
      · exact le_trans (Nat.le_succ _) (ih _ _ _ _)
      · exact Nat.le_succ _

theorem refresh_token_with_retry_calls_pos (now : Int) (o : Nat → RefreshOutcome)
    (st : TokenInfo) : 1 ≤ (refresh_token_with_retry now o st).networkCalls := by
  show 1 ≤ (refresh_retry_go now o (2 + 1) 0 st 0 []).networkCalls
  simp only [refresh_retry_go]
  repeat' split
  all_goals simp

/-! ## C1: cached token fast path -/

/-- C1: when an access token is present and `expiry_time - now` is at least
`TOKEN_REFRESH_THRESHOLD`, `get_token(force_refresh=False)` performs zero
network refresh calls, leaves the token state unchanged, and returns the
cached access token. -/
theorem get_token_cached_fast_path (now now2 : Int) (o : Nat → RefreshOutcome)
    (st : TokenInfo) (tok : String)
    (htok : st.access_token = some tok)
    (hfar : (TOKEN_REFRESH_THRESHOLD : Int) ≤ st.expiry_time - now) :
    get_token false now now2 o st = ⟨st, false, some tok, 0, []⟩ := by
  have hlt : ¬ (st.expiry_time - now < (TOKEN_REFRESH_THRESHOLD : Int)) := not_lt.mpr hfar
  have h1 : needs_refresh false now st = false := by
    simp [needs_refresh, htok, hlt]
  simp [get_token, h1, htok]

/-- Witness for C1: a concrete state holding token `"tok"` with 7200 s of
validity left is returned unchanged with zero network calls. -/
theorem get_token_cached_fast_path_witness :
    get_token false 0 0 (fun _ => RefreshOutcome.transportError) ⟨some "tok", 7200⟩ =
      ⟨⟨some "tok", 7200⟩, false, some "tok", 0, []⟩ :=
  get_token_cached_fast_path 0 0 (fun _ => RefreshOutcome.transportError)
    ⟨some "tok", 7200⟩ "tok" rfl (by decide)

/-! ## C2: retry bound on all-transport-error calls -/

/-- C2: when every attempt fails with a transport-level error, `call_api`
invokes the underlying transport exactly `MAX_RETRIES` times and then raises
the transport error; it never returns normally. -/
theorem call_api_transport_exhausts_retries (p : Payload) (auth : String)
    (o : Nat → ApiOutcome) (fresh : Nat → String)
    (h : ∀ i, i < MAX_RETRIES → o i = ApiOutcome.exn) :
    (call_api p auth o fresh).attempts = MAX_RETRIES ∧
      (call_api p auth o fresh).result = CallResult.transportError := by
  have h0 := h 0 (by decide)
  have h1 := h 1 (by decide)
  have h2 := h 2 (by decide)
  constructor <;>
    simp [call_api, call_api_go, MAX_RETRIES, h0, h1, h2]

/-- Witness for C2: the always-failing transport oracle yields 3 attempts and
a raised transport error. -/
theorem call_api_transport_exhausts_retries_witness :
    (call_api Payload.nonDict "Bearer t0" (fun _ => ApiOutcome.exn)
        (fun _ => "f")).attempts = MAX_RETRIES ∧
      (call_api Payload.nonDict "Bearer t0" (fun _ => ApiOutcome.exn)
        (fun _ => "f")).result = CallResult.transportError :=
  call_api_transport_exhausts_retries Payload.nonDict "Bearer t0"
    (fun _ => ApiOutcome.exn) (fun _ => "f") (fun _ _ => rfl)

/-! ## C4: terminal application error on first attempt -/

/-- C4: an HTTP 200 first attempt carrying a JSON error envelope whose
message does not say the token is invalid makes `call_api` raise the
application error on that first attempt: one transport call, zero retries,
zero sleeps, zero token refreshes, headers untouched. -/
theorem call_api_terminal_app_error (p : Payload) (auth : String)
    (o : Nat → ApiOutcome) (fresh : Nat → String) (msg : String)
    (h0 : o 0 = ApiOutcome.resp ⟨200, some (some msg)⟩)
    (hmsg : msgSaysTokenInvalid msg = false) :
    call_api p auth o fresh =
      ⟨CallResult.appError msg, choose_encoding p, auth, 0, 1, []⟩ := by
  simp [call_api, call_api_go, MAX_RETRIES, h0, errorMessageOf, hmsg]

/-- Witness for C4: the envelope `{"error":{"message":"invalid parameter"}}`
under HTTP 200 raises immediately with no retry and no refresh. -/
theorem call_api_terminal_app_error_witness :
    call_api Payload.nonDict "Bearer t0"
        (fun _ => ApiOutcome.resp ⟨200, some (some "invalid parameter")⟩)
        (fun _ => "f") =
      ⟨CallResult.appError "invalid parameter", Encoding.form, "Bearer t0", 0, 1, []⟩ :=
  call_api_terminal_app_error Payload.nonDict "Bearer t0"
    (fun _ => ApiOutcome.resp ⟨200, some (some "invalid parameter")⟩)
    (fun _ => "f") "invalid parameter" rfl (by decide)

/-! ## C5: auth failure forces one refresh and a retry -/

/-- C5: whenever an attempt fails with HTTP 401 or 403 and a retry slot
remains, the loop forces exactly one token refresh, overwrites the
Authorization header with the fresh bearer token, and retries (first
conjunct, a step equation of the loop); in particular an HTTP 401/403 on the
first attempt followed by an HTTP 200 success on the second yields the
success response after exactly one forced refresh and one retry (second
conjunct). -/
theorem call_api_auth_error_refresh_retry (p : Payload) (auth : String)
    (o : Nat → ApiOutcome) (fresh : Nat → String) (s : Nat)
    (hs : s = 401 ∨ s = 403)
    (h0 : o 0 = ApiOutcome.resp ⟨s, none⟩)
    (h1 : o 1 = ApiOutcome.resp ⟨200, none⟩) :
    (∀ (enc : Encoding) (o2 : Nat → ApiOutcome) (fr2 : Nat → String)
        (fuel attempt : Nat) (auth2 : String) (refreshes attempts : Nat)
        (sleeps : List Nat),
        attempt < MAX_RETRIES - 1 →
        o2 attempt = ApiOutcome.resp ⟨s, none⟩ →
        call_api_go enc o2 fr2 (fuel + 1) attempt auth2 refreshes attempts sleeps =
          call_api_go enc o2 fr2 fuel (attempt + 1) ("Bearer " ++ fr2 refreshes)
            (refreshes + 1) (attempts + 1) (sleeps ++ [RETRY_DELAY * 2 ^ attempt])) ∧
    call_api p auth o fresh =
      ⟨CallResult.success ⟨200, none⟩, choose_encoding p, "Bearer " ++ fresh 0, 1, 2,
        [RETRY_DELAY * 2 ^ 0]⟩ := by
  constructor
  · intro enc o2 fr2 fuel attempt auth2 refreshes attempts sleeps hlt ho2
    rcases hs with rfl | rfl <;> simp [call_api_go, ho2, hlt]
  · rcases hs with rfl | rfl <;>
      simp [call_api, call_api_go, MAX_RETRIES, h0, h1]

/-- Witness for C5: HTTP 401 on attempt 1, HTTP 200 on attempt 2. -/
theorem call_api_auth_error_refresh_retry_witness :
    call_api Payload.nonDict "Bearer t0"
        (fun i => if i = 0 then ApiOutcome.resp ⟨401, none⟩ else ApiOutcome.resp ⟨200, none⟩)
        (fun _ => "t1") =
      ⟨CallResult.success ⟨200, none⟩, Encoding.form, "Bearer t1", 1, 2,
        [RETRY_DELAY * 2 ^ 0]⟩ :=
  (call_api_auth_error_refresh_retry Payload.nonDict "Bearer t0"
    (fun i => if i = 0 then ApiOutcome.resp ⟨401, none⟩ else ApiOutcome.resp ⟨200, none⟩)
    (fun _ => "t1") 401 (Or.inl rfl) rfl rfl).2

/-! ## C6: refresh atomicity (corrected) -/

/-- Counterexample to C6 as stated: a 2xx JSON token response that carries
`access_token` but lacks `expires_in` makes `refresh_token` raise (the
`KeyError` of line 203) AFTER line 202 has already overwritten
`access_token`; the failed refresh commits a partially-updated state. -/
theorem refresh_token_partial_update_cex :
    (refresh_token 0 (RefreshOutcome.httpResponse true true (some "new") none)
        ⟨some "old", 5000⟩).ok = false ∧
    (refresh_token 0 (RefreshOutcome.httpResponse true true (some "new") none)
        ⟨some "old", 5000⟩).state ≠ (⟨some "old", 5000⟩ : TokenInfo) ∧
    (refresh_token 0 (RefreshOutcome.httpResponse true true (some "new") none)
        ⟨some "old", 5000⟩).state = (⟨some "new", 5000⟩ : TokenInfo) := by
  decide

/-- C6 amended: every execution of `refresh_token` either succeeds and
updates both fields, or fails before the `access_token` assignment of line
202 and leaves the state exactly as it was, or — precisely when a 2xx JSON
response carries `access_token` but no `expires_in` — fails after updating
`access_token` alone, leaving `expiry_time` unchanged. -/
theorem refresh_token_state_characterization (now : Int) (o : RefreshOutcome)
    (st : TokenInfo) :
    (∃ t e, o = RefreshOutcome.httpResponse true true (some t) (some e) ∧
        refresh_token now o st = ⟨⟨some t, now + e⟩, true, schedule_token_refresh e⟩) ∨
    ((refresh_token now o st).ok = false ∧ (refresh_token now o st).state = st) ∨
    (∃ t, o = RefreshOutcome.httpResponse true true (some t) none ∧
        refresh_token now o st = ⟨⟨some t, st.expiry_time⟩, false, false⟩) := by
  rcases o with _ | ⟨ok, jsonOk, tok, exp⟩
  · right; left; simp [refresh_token]
  · cases ok
    · right; left; simp [refresh_token]
    · cases jsonOk
      · right; left; simp [refresh_token]
      · rcases tok with _ | t
        · right; left; simp [refresh_token]
        · rcases exp with _ | e
          · right; right; exact ⟨t, rfl, by simp [refresh_token]⟩
          · left; exact ⟨t, e, rfl, by simp [refresh_token]⟩

/-! ## C7: forced refresh always hits the network -/

/-- C7: `get_token(force_refresh=True)` performs at least one network
refresh call in every token-manager state, including one holding a fresh
cached token far beyond the threshold. -/
theorem get_token_force_refresh_hits_network (now now2 : Int)
    (o : Nat → RefreshOutcome) (st : TokenInfo) :
    1 ≤ (get_token true now now2 o st).networkCalls := by
  have h1 : needs_refresh true now st = true := by simp [needs_refresh]
  have h2 : needs_refresh true now2 st = true := by simp [needs_refresh]
  have hpos := refresh_token_with_retry_calls_pos now2 o st
  simp only [get_token, h1, h2, if_true]
  split <;> exact hpos

/-! ## C9: payload encoding rule -/

theorem call_api_go_encoding (enc : Encoding) (o : Nat → ApiOutcome)
    (fresh : Nat → String) :
    ∀ fuel attempt auth refreshes attempts sleeps,
      (call_api_go enc o fresh fuel attempt auth refreshes attempts sleeps).encoding = enc := by
  intro fuel
  induction fuel with
  | zero => intro attempt auth refreshes attempts sleeps; rfl
  | succ f ih =>
    intro attempt auth refreshes attempts sleeps
    simp only [call_api_go]
    cases ho : o attempt with
    | exn =>
      simp only [ho]
      split
      · exact ih _ _ _ _ _
      · rfl
    | resp r =>
      simp only [ho]
      repeat' split
      all_goals first | exact ih _ _ _ _ _ | rfl

/-- C9: the request body of a `call_api` invocation is JSON-encoded if and
only if the payload is a dict containing the key `image_b64`; every other
payload is sent form-encoded. -/
theorem call_api_encoding_rule (params : Payload) (auth : String)
    (o : Nat → ApiOutcome) (fresh : Nat → String) :
    ((call_api params auth o fresh).encoding = Encoding.json ↔
      ∃ keys, params = Payload.dict keys ∧ "image_b64" ∈ keys) ∧
    ((call_api params auth o fresh).encoding = Encoding.json ∨
      (call_api params auth o fresh).encoding = Encoding.form) := by
  have henc : (call_api params auth o fresh).encoding = choose_encoding params :=
    call_api_go_encoding _ o fresh _ _ _ _ _ _
  rw [henc]
  constructor
  · constructor
    · intro hj
      rcases params with keys | _
      · refine ⟨keys, rfl, ?_⟩
        simpa [choose_encoding] using hj
      · simp [choose_encoding] at hj
    · rintro ⟨keys, rfl, hmem⟩
      simpa [choose_encoding] using hmem
  · rcases hce : choose_encoding params with _ | _
    · exact Or.inl rfl
    · exact Or.inr rfl

/-! ## C10: proactive background refresh scheduling -/

/-- C10: a successful `refresh_token` starts the background proactive-refresh
timer if and only if the returned `expires_in` is strictly greater than
`TOKEN_REFRESH_THRESHOLD` (3600 s); for `expires_in ≤ 3600` no timer is
started and only the on-demand path remains. -/
theorem refresh_token_schedules_iff (now : Int) (t : String) (e : Int)
    (st : TokenInfo) :
    (refresh_token now (RefreshOutcome.httpResponse true true (some t) (some e)) st).ok
        = true ∧
    ((refresh_token now (RefreshOutcome.httpResponse true true (some t) (some e)) st).scheduled
        = true ↔ (TOKEN_REFRESH_THRESHOLD : Int) < e) := by
  constructor
  · simp [refresh_token]
  · simp only [refresh_token, schedule_token_refresh]
    constructor
    · intro h
      have := of_decide_eq_true h
      omega
    · intro h
      exact decide_eq_true (by omega)

/-! ## C8: backoff growth (corrected) -/

theorem refresh_retry_go_sleeps (now : Int) (o : Nat → RefreshOutcome) :
    ∀ fuel attempt st, fuel + attempt = MAX_RETRIES → attempt < MAX_RETRIES →
      (refresh_retry_go now o fuel attempt st attempt
          ((List.range attempt).map backoffOf)).sleeps =
        (List.range ((refresh_retry_go now o fuel attempt st attempt
          ((List.range attempt).map backoffOf)).networkCalls - 1)).map backoffOf := by
  intro fuel
  induction fuel with
  | zero =>
    intro attempt st h1 h2
    exfalso; omega
  | succ f ih =>
    intro attempt st h1 h2
    have hmr : MAX_RETRIES = 3 := rfl
    have hacc : (List.range attempt).map backoffOf ++ [RETRY_DELAY * 2 ^ attempt]
        = (List.range (attempt + 1)).map backoffOf := by
      rw [List.range_succ, List.map_append]
      rfl
    simp only [refresh_retry_go]
    by_cases hok : (refresh_token now (o attempt) st).ok = true
    · rw [if_pos hok]
      simp
    · rw [if_neg hok]
      by_cases hlt : attempt < MAX_RETRIES - 1
      · rw [if_pos hlt, hacc]
        exact ih (attempt + 1) _ (by omega) (by omega)
      · rw [if_neg hlt]
        simp

theorem refresh_token_with_retry_sleeps (now : Int) (o : Nat → RefreshOutcome)
    (st : TokenInfo) :
    (refresh_token_with_retry now o st).sleeps =
      (List.range ((refresh_token_with_retry now o st).networkCalls - 1)).map backoffOf := by
  have h := refresh_retry_go_sleeps now o MAX_RETRIES 0 st (by omega) (by decide)
  simpa [refresh_token_with_retry] using h

theorem call_api_go_sleeps (enc : Encoding) (o : Nat → ApiOutcome) (fresh : Nat → String)
    (hno : ∀ i, isTokenInvalid200 (o i) = false) :
    ∀ fuel attempt auth refreshes, fuel + attempt = MAX_RETRIES → attempt < MAX_RETRIES →
      (call_api_go enc o fresh fuel attempt auth refreshes attempt
          ((List.range attempt).map backoffOf)).sleeps =
        (List.range ((call_api_go enc o fresh fuel attempt auth refreshes attempt
          ((List.range attempt).map backoffOf)).attempts - 1)).map backoffOf := by
  intro fuel
  induction fuel with
  | zero =>
    intro attempt auth refreshes h1 h2
    exfalso; omega
  | succ f ih =>
    intro attempt auth refreshes h1 h2
    have hmr : MAX_RETRIES = 3 := rfl
    have hacc : (List.range attempt).map backoffOf ++ [RETRY_DELAY * 2 ^ attempt]
        = (List.range (attempt + 1)).map backoffOf := by
      rw [List.range_succ, List.map_append]
      rfl
    simp only [call_api_go]
    cases ho : o attempt with
    | exn =>
      simp only [ho]
      by_cases hlt : attempt < MAX_RETRIES - 1
      · rw [if_pos hlt, hacc]
        exact ih (attempt + 1) _ _ (by omega) (by omega)
      · rw [if_neg hlt]
        simp
    | resp r =>
      simp only [ho]
      by_cases h200 : (r.status == 200 && r.errObj.isSome) = true
      · rw [if_pos h200]
        have hti := hno attempt
        rw [ho] at hti
        simp [isTokenInvalid200, h200] at hti
        simp [hti]
      · rw [if_neg h200]
        by_cases h400 : 400 ≤ r.status
        · rw [if_pos h400]
          by_cases hlt : attempt < MAX_RETRIES - 1
          · rw [if_pos hlt]
            by_cases hauth : (r.status == 401 || r.status == 403) = true
            · rw [if_pos hauth, hacc]
              exact ih (attempt + 1) _ _ (by omega) (by omega)
            · rw [if_neg hauth, hacc]
              exact ih (attempt + 1) _ _ (by omega) (by omega)
          · rw [if_neg hlt]
            simp
        · rw [if_neg h400]
          simp

/-- Counterexample to C8 as stated: an HTTP 200 carrying a
`token is invalid` error envelope on attempt 1 causes a retry (attempt 2
happens) with NO recorded sleep at all — lines 276-280 `continue` without
sleeping — so not every retry is preceded by a backoff sleep. -/
theorem call_api_token_invalid_retry_no_sleep_cex :
    ((call_api Payload.nonDict "Bearer t0"
        (fun i => if i = 0 then ApiOutcome.resp ⟨200, some (some "token is invalid")⟩
                  else ApiOutcome.resp ⟨200, none⟩)
        (fun _ => "t1")).attempts = 2) ∧
    ((call_api Payload.nonDict "Bearer t0"
        (fun i => if i = 0 then ApiOutcome.resp ⟨200, some (some "token is invalid")⟩
                  else ApiOutcome.resp ⟨200, none⟩)
        (fun _ => "t1")).sleeps = []) ∧
    ¬ ((call_api Payload.nonDict "Bearer t0"
        (fun i => if i = 0 then ApiOutcome.resp ⟨200, some (some "token is invalid")⟩
                  else ApiOutcome.resp ⟨200, none⟩)
        (fun _ => "t1")).sleeps.length =
      (call_api Payload.nonDict "Bearer t0"
        (fun i => if i = 0 then ApiOutcome.resp ⟨200, some (some "token is invalid")⟩
                  else ApiOutcome.resp ⟨200, none⟩)
        (fun _ => "t1")).attempts - 1) := by
  decide

/-- C8 amended: in the token-refresh retry loop every retry is preceded by a
sleep of exactly `RETRY_DELAY * 2^attempt` seconds with the attempt count
starting at 0 and no sleep after the final attempt (the recorded sleeps are
exactly `[backoffOf 0, ..., backoffOf (calls-2)]`); the same holds for the
`call_api` loop provided no attempt takes the invalid-token-inside-HTTP-200
path, which retries immediately without sleeping. -/
theorem backoff_growth_amended (now : Int) (ro : Nat → RefreshOutcome) (st : TokenInfo)
    (p : Payload) (auth : String) (o : Nat → ApiOutcome) (fresh : Nat → String)
    (hno : ∀ i, isTokenInvalid200 (o i) = false) :
    (refresh_token_with_retry now ro st).sleeps =
      (List.range ((refresh_token_with_retry now ro st).networkCalls - 1)).map backoffOf ∧
    (call_api p auth o fresh).sleeps =
      (List.range ((call_api p auth o fresh).attempts - 1)).map backoffOf := by
  refine ⟨refresh_token_with_retry_sleeps now ro st, ?_⟩
  have h := call_api_go_sleeps (choose_encoding p) o fresh hno MAX_RETRIES 0 auth 0
    (by omega) (by decide)
  simpa [call_api] using h

/-- Witness for amended C8: with every attempt a transport error, both loops
record sleeps `[2, 4]` for their two retries and none after the third
attempt. -/
theorem backoff_growth_amended_witness :
    (refresh_token_with_retry 0 (fun _ => RefreshOutcome.transportError)
        ⟨none, 0⟩).sleeps =
      (List.range ((refresh_token_with_retry 0 (fun _ => RefreshOutcome.transportError)
        ⟨none, 0⟩).networkCalls - 1)).map backoffOf ∧
    (call_api Payload.nonDict "Bearer t0" (fun _ => ApiOutcome.exn)
        (fun _ => "f")).sleeps =
      (List.range ((call_api Payload.nonDict "Bearer t0" (fun _ => ApiOutcome.exn)
        (fun _ => "f")).attempts - 1)).map backoffOf :=
  backoff_growth_amended 0 (fun _ => RefreshOutcome.transportError) ⟨none, 0⟩
    Payload.nonDict "Bearer t0" (fun _ => ApiOutcome.exn) (fun _ => "f")
    (fun _ => rfl)

/-! ## C3: get_token under concurrent callers (src/api/index.py lines 143-164)

Each of `N` threads runs `get_token(force_refresh=False)`: check the refresh
condition without the lock, then (if stale) acquire `refresh_lock`, re-check
the condition, refresh if still stale, release, and return
`token_info["access_token"]`.  The interleaving of the threads is modelled as
a small-step transition system: the shared state is the token pair, the lock
holder, the per-thread program counters and a count of network refresh
calls.  Entering the network call (`refreshing`) and its committing mutation
are separate steps, so mutual exclusion of the in-flight network call is
expressible.  Time is frozen at `now` and the refresh is modelled as
succeeding with a token valid beyond the threshold, matching the claim's
scenario of a single successful refresh. -/

inductive PC where
  | start
  | waitLock
  | recheck
  | refreshing
  | unlock
  | done (ret : Option String)
deriving DecidableEq, Repr

/-- The environment of a run: the frozen clock, the initial token pair, and
the token/expiry written by the (successful) refresh. -/
structure Env where
  now : Int
  tok0 : Option String
  e0 : Int
  newTok : String
  newExp : Int

/-- The claim's scenario: initially no valid token exists, and the refresh
produces a token valid for at least the threshold. -/
def EnvOk (env : Env) : Prop :=
  (env.tok0 = none ∨ env.e0 - env.now < (TOKEN_REFRESH_THRESHOLD : Int)) ∧
    (TOKEN_REFRESH_THRESHOLD : Int) ≤ env.newExp - env.now

structure CState (n : Nat) where
  tstate : TokenInfo
  lock : Option (Fin n)
  pcs : Fin n → PC
  refreshCount : Nat

/-- The unlocked check of lines 148-152 and the re-check of lines 158-160,
with `force_refresh = False`, evaluated on the shared state. -/
def condOf (env : Env) {n : Nat} (s : CState n) : Bool :=
  needs_refresh false env.now s.tstate

def initState (env : Env) (n : Nat) : CState n :=
  ⟨⟨env.tok0, env.e0⟩, none, fun _ => PC.start, 0⟩

/-- One interleaving step: some thread `i` advances through
`get_token(force_refresh=False)`.  `acquire` requires the lock to be free;
`doRefresh` commits the successful network call, writing both fields and
counting one network refresh; `release` returns
`token_info["access_token"]` (line 164). -/
inductive Step {n : Nat} (env : Env) : CState n → CState n → Prop where
  | fastTrue (s : CState n) (i : Fin n) :
      s.pcs i = PC.start → condOf env s = true →
      Step env s { s with pcs := Function.update s.pcs i PC.waitLock }
  | fastFalse (s : CState n) (i : Fin n) :
      s.pcs i = PC.start → condOf env s = false →
      Step env s { s with pcs := Function.update s.pcs i (PC.done s.tstate.access_token) }
  | acquire (s : CState n) (i : Fin n) :
      s.pcs i = PC.waitLock → s.lock = none →
      Step env s { s with lock := some i, pcs := Function.update s.pcs i PC.recheck }
  | recheckTrue (s : CState n) (i : Fin n) :
      s.pcs i = PC.recheck → condOf env s = true →
      Step env s { s with pcs := Function.update s.pcs i PC.refreshing }
  | recheckFalse (s : CState n) (i : Fin n) :
      s.pcs i = PC.recheck → condOf env s = false →
      Step env s { s with pcs := Function.update s.pcs i PC.unlock }
  | doRefresh (s : CState n) (i : Fin n) :
      s.pcs i = PC.refreshing →
      Step env s { s with
        tstate := ⟨some env.newTok, env.newExp⟩,
        refreshCount := s.refreshCount + 1,
        pcs := Function.update s.pcs i PC.unlock }
  | release (s : CState n) (i : Fin n) :
      s.pcs i = PC.unlock →
      Step env s { s with
        lock := none,
        pcs := Function.update s.pcs i (PC.done s.tstate.access_token) }

def Reachable (env : Env) (n : Nat) (s : CState n) : Prop :=
  Relation.ReflTransGen (Step env) (initState env n) s

/-- Program counters inside the `with token_info["refresh_lock"]:` block. -/
def inRegion : PC → Bool
  | PC.recheck => true
  | PC.refreshing => true
  | PC.unlock => true
  | _ => false

/-- The inductive invariant: lock-region threads hold the lock; the shared
token pair is either initial with no refresh or refreshed exactly once; a
thread in flight on the network call means no refresh has happened yet; a
thread past the refresh means exactly one happened; finished threads saw the
refreshed token. -/
structure TokenInv (env : Env) {n : Nat} (s : CState n) : Prop where
  region_lock : ∀ i : Fin n, inRegion (s.pcs i) = true → s.lock = some i
  count_state : (s.refreshCount = 0 ∧ s.tstate = ⟨env.tok0, env.e0⟩) ∨
    (s.refreshCount = 1 ∧ s.tstate = ⟨some env.newTok, env.newExp⟩)
  refreshing_zero : ∀ i : Fin n, s.pcs i = PC.refreshing → s.refreshCount = 0
  unlock_one : ∀ i : Fin n, s.pcs i = PC.unlock → s.refreshCount = 1
  done_tok : ∀ (i : Fin n) (r : Option String), s.pcs i = PC.done r →
    s.refreshCount = 1 ∧ r = some env.newTok

theorem cond_stale {n : Nat} (env : Env) (henv : EnvOk env) (s : CState n)
    (h : s.tstate = ⟨env.tok0, env.e0⟩) : condOf env s = true := by
  rcases henv.1 with h0 | h0
  · simp [condOf, needs_refresh, h, h0]
  · simp [condOf, needs_refresh, h, h0]

theorem cond_fresh {n : Nat} (env : Env) (henv : EnvOk env) (s : CState n)
    (h : s.tstate = ⟨some env.newTok, env.newExp⟩) : condOf env s = false := by
  have hlt : ¬ (env.newExp - env.now < (TOKEN_REFRESH_THRESHOLD : Int)) :=
    not_lt.mpr henv.2
  simp [condOf, needs_refresh, h, hlt]

theorem inv_init (env : Env) (n : Nat) : TokenInv env (initState env n) := by
  refine ⟨?_, ?_, ?_, ?_, ?_⟩
  · intro i hi
    simp [initState, inRegion] at hi
  · exact Or.inl ⟨rfl, rfl⟩
  · intro i hi
    simp [initState] at hi
  · intro i hi
    simp [initState] at hi
  · intro i r hi
    simp [initState] at hi

theorem inv_step {n : Nat} (env : Env) (henv : EnvOk env) (s s2 : CState n)
    (hinv : TokenInv env s) (hstep : Step env s s2) : TokenInv env s2 := by
  cases hstep with
  | fastTrue i hpc hcond =>
    refine ⟨?_, hinv.count_state, ?_, ?_, ?_⟩
    · intro j hj
      replace hj : inRegion (Function.update s.pcs i PC.waitLock j) = true := hj
      rcases eq_or_ne j i with rfl | hne
      · rw [Function.update_same] at hj
        simp [inRegion] at hj
      · rw [Function.update_noteq hne] at hj
        exact hinv.region_lock j hj
    · intro j hj
      replace hj : Function.update s.pcs i PC.waitLock j = PC.refreshing := hj
      rcases eq_or_ne j i with rfl | hne
      · rw [Function.update_same] at hj
        simp at hj
      · rw [Function.update_noteq hne] at hj
        exact hinv.refreshing_zero j hj
    · intro j hj
      replace hj : Function.update s.pcs i PC.waitLock j = PC.unlock := hj
      rcases eq_or_ne j i with rfl | hne
      · rw [Function.update_same] at hj
        simp at hj
      · rw [Function.update_noteq hne] at hj
        exact hinv.unlock_one j hj
    · intro j r hj
      replace hj : Function.update s.pcs i PC.waitLock j = PC.done r := hj
      rcases eq_or_ne j i with rfl | hne
      · rw [Function.update_same] at hj
        simp at hj
      · rw [Function.update_noteq hne] at hj
        exact hinv.done_tok j r hj
  | fastFalse i hpc hcond =>
    refine ⟨?_, hinv.count_state, ?_, ?_, ?_⟩
    · intro j hj
      replace hj :
          inRegion (Function.update s.pcs i (PC.done s.tstate.access_token) j) = true := hj
      rcases eq_or_ne j i with rfl | hne
      · rw [Function.update_same] at hj
        simp [inRegion] at hj
      · rw [Function.update_noteq hne] at hj
        exact hinv.region_lock j hj
    · intro j hj
      replace hj :
          Function.update s.pcs i (PC.done s.tstate.access_token) j = PC.refreshing := hj
      rcases eq_or_ne j i with rfl | hne
      · rw [Function.update_same] at hj
        simp at hj
      · rw [Function.update_noteq hne] at hj
        exact hinv.refreshing_zero j hj
    · intro j hj
      replace hj :
          Function.update s.pcs i (PC.done s.tstate.access_token) j = PC.unlock := hj
      rcases eq_or_ne j i with rfl | hne
      · rw [Function.update_same] at hj
        simp at hj
      · rw [Function.update_noteq hne] at hj
        exact hinv.unlock_one j hj
    · intro j r hj
      replace hj :
          Function.update s.pcs i (PC.done s.tstate.access_token) j = PC.done r := hj
      rcases eq_or_ne j i with rfl | hne
      · rw [Function.update_same] at hj
        cases hj
        rcases hinv.count_state with ⟨_, hts⟩ | ⟨h1, hts⟩
        · rw [cond_stale env henv s hts] at hcond
          simp at hcond
        · exact ⟨h1, by rw [hts]⟩
      · rw [Function.update_noteq hne] at hj
        exact hinv.done_tok j r hj
  | acquire i hpc hlock =>
    refine ⟨?_, hinv.count_state, ?_, ?_, ?_⟩
    · intro j hj
      replace hj : inRegion (Function.update s.pcs i PC.recheck j) = true := hj
      show some i = some j
      rcases eq_or_ne j i with rfl | hne
      · rfl
      · rw [Function.update_noteq hne] at hj
        have h2 := hinv.region_lock j hj
        rw [hlock] at h2
        simp at h2
    · intro j hj
      replace hj : Function.update s.pcs i PC.recheck j = PC.refreshing := hj
      rcases eq_or_ne j i with rfl | hne
      · rw [Function.update_same] at hj
        simp at hj
      · rw [Function.update_noteq hne] at hj
        exact hinv.refreshing_zero j hj
    · intro j hj
      replace hj : Function.update s.pcs i PC.recheck j = PC.unlock := hj
      rcases eq_or_ne j i with rfl | hne
      · rw [Function.update_same] at hj
        simp at hj
      · rw [Function.update_noteq hne] at hj
        exact hinv.unlock_one j hj
    · intro j r hj
      replace hj : Function.update s.pcs i PC.recheck j = PC.done r := hj
      rcases eq_or_ne j i with rfl | hne
      · rw [Function.update_same] at hj
        simp at hj
      · rw [Function.update_noteq hne] at hj
        exact hinv.done_tok j r hj
  | recheckTrue i hpc hcond =>
    have h0 : s.refreshCount = 0 := by
      rcases hinv.count_state with ⟨h, _⟩ | ⟨_, hts⟩
      · exact h
      · rw [cond_fresh env henv s hts] at hcond
        simp at hcond
    refine ⟨?_, hinv.count_state, ?_, ?_, ?_⟩
    · intro j hj
      replace hj : inRegion (Function.update s.pcs i PC.refreshing j) = true := hj
      rcases eq_or_ne j i with rfl | hne
      · exact hinv.region_lock j (by rw [hpc]; rfl)
      · rw [Function.update_noteq hne] at hj
        exact hinv.region_lock j hj
    · intro j hj
      exact h0
    · intro j hj
      replace hj : Function.update s.pcs i PC.refreshing j = PC.unlock := hj
      rcases eq_or_ne j i with rfl | hne
      · rw [Function.update_same] at hj
        simp at hj
      · rw [Function.update_noteq hne] at hj
        exact hinv.unlock_one j hj
    · intro j r hj
      replace hj : Function.update s.pcs i PC.refreshing j = PC.done r := hj
      rcases eq_or_ne j i with rfl | hne
      · rw [Function.update_same] at hj
        simp at hj
      · rw [Function.update_noteq hne] at hj
        exact hinv.done_tok j r hj
  | recheckFalse i hpc hcond =>
    have h1 : s.refreshCount = 1 := by
      rcases hinv.count_state with ⟨_, hts⟩ | ⟨h, _⟩
      · rw [cond_stale env henv s hts] at hcond
        simp at hcond
      · exact h
    refine ⟨?_, hinv.count_state, ?_, ?_, ?_⟩
    · intro j hj
      replace hj : inRegion (Function.update s.pcs i PC.unlock j) = true := hj
      rcases eq_or_ne j i with rfl | hne
      · exact hinv.region_lock j (by rw [hpc]; rfl)
      · rw [Function.update_noteq hne] at hj
        exact hinv.region_lock j hj
    · intro j hj
      replace hj : Function.update s.pcs i PC.unlock j = PC.refreshing := hj
      rcases eq_or_ne j i with rfl | hne
      · rw [Function.update_same] at hj
        simp at hj
      · rw [Function.update_noteq hne] at hj
        exact hinv.refreshing_zero j hj
    · intro j hj
      exact h1
    · intro j r hj
      replace hj : Function.update s.pcs i PC.unlock j = PC.done r := hj
      rcases eq_or_ne j i with rfl | hne
      · rw [Function.update_same] at hj
        simp at hj
      · rw [Function.update_noteq hne] at hj
        exact hinv.done_tok j r hj
  | doRefresh i hpc =>
    have h0 : s.refreshCount = 0 := hinv.refreshing_zero i hpc
    refine ⟨?_, ?_, ?_, ?_, ?_⟩
    · intro j hj
      replace hj : inRegion (Function.update s.pcs i PC.unlock j) = true := hj
      rcases eq_or_ne j i with rfl | hne
      · exact hinv.region_lock j (by rw [hpc]; rfl)
      · rw [Function.update_noteq hne] at hj
        exact hinv.region_lock j hj
    · refine Or.inr ⟨?_, rfl⟩
      show s.refreshCount + 1 = 1
      omega
    · intro j hj
      replace hj : Function.update s.pcs i PC.unlock j = PC.refreshing := hj
      rcases eq_or_ne j i with rfl | hne
      · rw [Function.update_same] at hj
        simp at hj
      · rw [Function.update_noteq hne] at hj
        have h2 := hinv.region_lock j (by rw [hj]; rfl)
        have h3 := hinv.region_lock i (by rw [hpc]; rfl)
        rw [h3] at h2
        exact absurd (Option.some.inj h2) (Ne.symm hne)
    · intro j hj
      show s.refreshCount + 1 = 1
      omega
    · intro j r hj
      replace hj : Function.update s.pcs i PC.unlock j = PC.done r := hj
      rcases eq_or_ne j i with rfl | hne
      · rw [Function.update_same] at hj
        simp at hj
      · rw [Function.update_noteq hne] at hj
        refine ⟨?_, (hinv.done_tok j r hj).2⟩
        show s.refreshCount + 1 = 1
        omega
  | release i hpc =>
    have h1 : s.refreshCount = 1 := hinv.unlock_one i hpc
    refine ⟨?_, hinv.count_state, ?_, ?_, ?_⟩
    · intro j hj
      replace hj :
          inRegion (Function.update s.pcs i (PC.done s.tstate.access_token) j) = true := hj
      rcases eq_or_ne j i with rfl | hne
      · rw [Function.update_same] at hj
        simp [inRegion] at hj
      · rw [Function.update_noteq hne] at hj
        have h2 := hinv.region_lock j hj
        have h3 := hinv.region_lock i (by rw [hpc]; rfl)
        rw [h3] at h2
        exact absurd (Option.some.inj h2) (Ne.symm hne)
    · intro j hj
      replace hj :
          Function.update s.pcs i (PC.done s.tstate.access_token) j = PC.refreshing := hj
      rcases eq_or_ne j i with rfl | hne
      · rw [Function.update_same] at hj
        simp at hj
      · rw [Function.update_noteq hne] at hj
        exact hinv.refreshing_zero j hj
    · intro j hj
      replace hj :
          Function.update s.pcs i (PC.done s.tstate.access_token) j = PC.unlock := hj
      rcases eq_or_ne j i with rfl | hne
      · rw [Function.update_same] at hj
        simp at hj
      · rw [Function.update_noteq hne] at hj
        exact hinv.unlock_one j hj
    · intro j r hj
      replace hj :
          Function.update s.pcs i (PC.done s.tstate.access_token) j = PC.done r := hj
      rcases eq_or_ne j i with rfl | hne
      · rw [Function.update_same] at hj
        cases hj
        rcases hinv.count_state with ⟨h0, _⟩ | ⟨_, hts⟩
        · exact absurd h1 (by omega)
        · exact ⟨h1, by rw [hts]⟩
      · rw [Function.update_noteq hne] at hj
        exact hinv.done_tok j r hj

theorem inv_reachable {n : Nat} (env : Env) (henv : EnvOk env) (s : CState n)
    (h : Reachable env n s) : TokenInv env s := by
  induction h with
  | refl => exact inv_init env n
  | tail hsteps hstep ih => exact inv_step env henv _ _ ih hstep

/-- C3: for `N` concurrent callers of `get_token(force_refresh=False)`
starting with no valid token, in every reachable interleaving (i) at most one
thread at a time is inside the network call that mutates the token state,
(ii) at most one network refresh is ever made — and exactly one once any
caller has finished — and (iii) every caller that finishes receives the
refreshed token. -/
theorem get_token_concurrent_single_refresh {n : Nat} (env : Env) (s : CState n)
    (henv : EnvOk env) (hreach : Reachable env n s) :
    (∀ i j : Fin n, s.pcs i = PC.refreshing → s.pcs j = PC.refreshing → i = j) ∧
    s.refreshCount ≤ 1 ∧
    (∀ (i : Fin n) (r : Option String), s.pcs i = PC.done r →
      s.refreshCount = 1 ∧ r = some env.newTok) := by
  have hinv := inv_reachable env henv s hreach
  refine ⟨?_, ?_, hinv.done_tok⟩
  · intro i j hi hj
    have h1 := hinv.region_lock i (by rw [hi]; rfl)
    have h2 := hinv.region_lock j (by rw [hj]; rfl)
    rw [h1] at h2
    exact Option.some.inj h2
  · rcases hinv.count_state with ⟨h, _⟩ | ⟨h, _⟩ <;> omega

/-! A concrete run of the protocol used as witness: one thread starts with an
empty token state, takes the refresh path end to end, and finishes holding
the refreshed token after exactly one network call. -/

def demoEnv : Env := ⟨0, none, 0, "tok_123", 7200⟩

def demo0 : CState 1 := initState demoEnv 1

def demo1 : CState 1 := { demo0 with pcs := Function.update demo0.pcs 0 PC.waitLock }

def demo2 : CState 1 :=
  { demo1 with lock := some 0, pcs := Function.update demo1.pcs 0 PC.recheck }

def demo3 : CState 1 := { demo2 with pcs := Function.update demo2.pcs 0 PC.refreshing }

def demo4 : CState 1 :=
  { demo3 with
    tstate := ⟨some demoEnv.newTok, demoEnv.newExp⟩,
    refreshCount := demo3.refreshCount + 1,
    pcs := Function.update demo3.pcs 0 PC.unlock }

def demo5 : CState 1 :=
  { demo4 with
    lock := none,
    pcs := Function.update demo4.pcs 0 (PC.done demo4.tstate.access_token) }

theorem demoEnv_ok : EnvOk demoEnv := ⟨Or.inl rfl, by decide⟩

theorem demo_reach : Reachable demoEnv 1 demo5 := by
  have h01 : Step demoEnv demo0 demo1 := Step.fastTrue demo0 0 (by decide) (by decide)
  have h12 : Step demoEnv demo1 demo2 := Step.acquire demo1 0 (by decide) (by decide)
  have h23 : Step demoEnv demo2 demo3 := Step.recheckTrue demo2 0 (by decide) (by decide)
  have h34 : Step demoEnv demo3 demo4 := Step.doRefresh demo3 0 (by decide)
  have h45 : Step demoEnv demo4 demo5 := Step.release demo4 0 (by decide)
  exact Relation.ReflTransGen.tail
    (Relation.ReflTransGen.tail
      (Relation.ReflTransGen.tail
        (Relation.ReflTransGen.tail (Relation.ReflTransGen.single h01) h12) h23) h34) h45

/-- Witness for C3: in the one-thread demo run the caller finished with the
refreshed token and exactly one network refresh happened. -/
theorem get_token_concurrent_single_refresh_witness :
    EnvOk demoEnv ∧ demo5.refreshCount ≤ 1 ∧ demo5.refreshCount = 1 ∧
      some "tok_123" = some demoEnv.newTok := by
  have h := get_token_concurrent_single_refresh demoEnv demo5 demoEnv_ok demo_reach
  have hd := h.2.2 0 (some "tok_123") (by decide)
  exact ⟨demoEnv_ok, h.2.1, hd.1, hd.2⟩
